import Mathlib

/-!
Verification development for the dividend dashboard application (src/app.py).

The five data-fetching clients of the application are embedded as pure Lean
functions.  Network transport, decompression, JSON decoding and provider
exceptions are modelled by an explicit outcome value passed to each client:
the client receives a `transport` oracle (a function from the request it
builds to an outcome), so that the requests actually issued are observable in
the result.  The Streamlit UI side effect `st.error` is modelled as a
`displayed_errors` list, separate from the value the function returns to its
caller.  Python `None` is modelled by `Option.none`; Python dictionaries with
string keys are modelled by association lists; pandas data frames are
modelled by lists of rows.
-/

namespace DividendApp

/-- Python f-string rendering of an optional value: `None` prints as the
literal text `None`, a string prints as itself.  Models
`f"... : {data.get('message')}"` in `get_korean_stock_dividend`. -/
def fmtOpt : Option String → String
  | none => "None"
  | some s => s

/-! ## Corporate registry client: `get_dart_corp_codes` (app.py lines 20-49) -/

/-- One `<list>` record of `CORPCODE.xml`.  `findtext` returns `None` when the
child element is absent, hence every field is optional. -/
structure RawCompany where
  corp_code : Option String
  corp_name : Option String
  stock_code : Option String
deriving Repr, DecidableEq

/-- The query parameters of the single GET issued by `get_dart_corp_codes`:
`params = {'crtfc_key': DART_API_KEY}` where `DART_API_KEY` may be `None`
when the environment variable is absent. -/
structure DartRequest where
  crtfc_key : Option String
deriving Repr, DecidableEq

/-- Outcome of the transport / decompression / parse pipeline of
`get_dart_corp_codes`.  The three failure constructors correspond to the
distinct stages that can raise (`requests.get` / `raise_for_status`,
`zipfile.ZipFile`, `ET.parse`); all three are caught by the single
`except Exception` clause in the source. -/
inductive CorpFetchOutcome where
  | httpError (msg : String)
  | zipError (msg : String)
  | parseError (msg : String)
  | ok (companies : List RawCompany)

/-- The filter of app.py line 39: `if stock_code and stock_code.strip():`.
An absent `stock_code` is falsy; an empty string is falsy; a whitespace-only
string has a falsy `strip()`. -/
def keepCompany (c : RawCompany) : Bool :=
  match c.stock_code with
  | none => false
  | some s => s ≠ "" && s.trim ≠ ""

/-- Observable behaviour of one call of `get_dart_corp_codes`: the data frame
it returns (`rows`), the messages shown via `st.error` (`displayed_errors`,
a UI side effect, not part of the return value), and the transport requests
it issued (`requests_made`). -/
structure CorpCodesResult where
  rows : List RawCompany
  displayed_errors : List String
  requests_made : List DartRequest
deriving Repr, DecidableEq

/-- Embedding of `get_dart_corp_codes` (app.py lines 20-49).  The function
builds the request with whatever `DART_API_KEY` holds, always performs the
GET, filters the parsed records by `keepCompany`, and on any exception shows
an error in the UI and returns an empty frame. -/
def get_dart_corp_codes (apiKey : Option String)
    (transport : DartRequest → CorpFetchOutcome) : CorpCodesResult :=
  let req : DartRequest := ⟨apiKey⟩
  match transport req with
  | .ok companies => ⟨companies.filter keepCompany, [], [req]⟩
  | .httpError m => ⟨[], ["회사 코드 데이터 조회 실패: " ++ m], [req]⟩
  | .zipError m => ⟨[], ["회사 코드 데이터 조회 실패: " ++ m], [req]⟩
  | .parseError m => ⟨[], ["회사 코드 데이터 조회 실패: " ++ m], [req]⟩

/-! ## ETF directory client: `get_krx_etf_list` (app.py lines 51-76) -/

/-- One element of the `output` array of the KRX JSON response, restricted to
the three columns the source selects (`ISU_SRT_CD`, `ISU_NM`, `ISU_CD`). -/
structure RawEtf where
  ISU_SRT_CD : String
  ISU_NM : String
  ISU_CD : String
deriving Repr, DecidableEq

/-- A row of the frame returned by `get_krx_etf_list` after the column
renaming of app.py line 71.  The source uses Korean column labels: `code`
is 종목코드, `name` is 종목명, `standard_code` is 표준코드 (Lean identifiers
cannot carry the Korean labels themselves). -/
structure EtfEntry where
  code : String
  name : String
  standard_code : String
deriving Repr, DecidableEq

/-- Outcome of the transport / JSON decode pipeline of `get_krx_etf_list`.
`keyError` covers a response without the expected `output` key or columns;
all failures are caught by the single `except Exception` clause. -/
inductive EtfFetchOutcome where
  | httpError (msg : String)
  | jsonError (msg : String)
  | keyError (msg : String)
  | ok (output : List RawEtf)

/-- Observable behaviour of one call of `get_krx_etf_list`: the returned
frame and the `st.error` UI side effect. -/
structure EtfListResult where
  rows : List EtfEntry
  displayed_errors : List String
deriving Repr, DecidableEq

/-- Embedding of `get_krx_etf_list` (app.py lines 51-76): on success the
three columns are selected and renamed; on any exception an error is shown
in the UI and an empty frame is returned. -/
def get_krx_etf_list (outcome : EtfFetchOutcome) : EtfListResult :=
  match outcome with
  | .ok output => ⟨output.map (fun r => ⟨r.ISU_SRT_CD, r.ISU_NM, r.ISU_CD⟩), []⟩
  | .httpError m => ⟨[], ["ETF 목록 조회 실패: " ++ m]⟩
  | .jsonError m => ⟨[], ["ETF 목록 조회 실패: " ++ m]⟩
  | .keyError m => ⟨[], ["ETF 목록 조회 실패: " ++ m]⟩

/-! ## Domestic corporate-action client: `get_korean_stock_dividend`
(app.py lines 78-113) -/

/-- A raw response row: a JSON object with string fields, modelled as an
association list from field name to value. -/
abbrev Row := List (String × String)

/-- The fixed column-renaming table of app.py lines 100-108. -/
def column_mapping : List (String × String) :=
  [("thstrm", "당기"), ("frmtrm", "전기"), ("lwfr", "전전기"),
   ("stock_knd", "주식 종류"), ("thstrm_dd", "당기 배당일"),
   ("frmtrm_dd", "전기 배당일"), ("lwfr_dd", "전전기 배당일")]

/-- `DataFrame.rename` semantics for one column name: a name present in the
mapping is replaced, any other name is kept unchanged. -/
def mapColumn (k : String) : String :=
  match column_mapping.find? (fun p => p.1 == k) with
  | some p => p.2
  | none => k

/-- Renaming applied to every field of one row. -/
def renameRow (r : Row) : Row :=
  r.map (fun kv => (mapColumn kv.1, kv.2))

/-- The query parameters of the GET issued by `get_korean_stock_dividend`
(app.py lines 81-86). -/
structure DivRequest where
  crtfc_key : Option String
  corp_code : String
  bsns_year : Nat
  reprt_code : String
deriving Repr, DecidableEq

/-- Outcome of the transport / JSON pipeline of `get_korean_stock_dividend`:
either some exception was raised (caught by the `except` clause), or a JSON
object was decoded, carrying the optional `status`, `message` and `list`
fields read via `data.get`. -/
inductive DivOutcome where
  | exc (msg : String)
  | json (status : Option String) (message : Option String)
      (rows : Option (List Row))

/-- Observable behaviour of one call of `get_korean_stock_dividend`: the
returned pair `(data, error)` plus the transport requests issued. `data` is
`none` when the Python value is `None` and `some rows` when it is a frame. -/
structure DivCallResult where
  data : Option (List Row)
  error : Option String
  requests_made : List DivRequest
deriving Repr, DecidableEq

/-- The branch structure of app.py lines 92-113 applied to the decoded
response: a provider status other than `000` (including an absent status,
which reads as `None`) yields the DART error message; a falsy `list` (absent
or empty) yields an empty frame with the no-data message; otherwise the rows
are renamed; an exception yields the fetch-failure message. -/
def dividend_response_to_result : DivOutcome → Option (List Row) × Option String
  | .exc m => (none, some ("배당 정보 조회 실패: " ++ m))
  | .json status message rows =>
    if status ≠ some "000" then
      (none, some ("DART API 오류: " ++ fmtOpt message))
    else
      match rows with
      | none => (some [], some "데이터가 없습니다.")
      | some [] => (some [], some "데이터가 없습니다.")
      | some rs => (some (rs.map renameRow), none)

/-- Embedding of `get_korean_stock_dividend` (app.py lines 78-113).  The
function builds the request from its arguments unconditionally — there is no
validation of `corp_code` — performs exactly one GET, and maps the outcome
through `dividend_response_to_result`. -/
def get_korean_stock_dividend (apiKey : Option String) (corp_code : String)
    (year : Nat) (reprt_code : String)
    (transport : DivRequest → DivOutcome) : DivCallResult :=
  let req : DivRequest := ⟨apiKey, corp_code, year, reprt_code⟩
  let r := dividend_response_to_result (transport req)
  ⟨r.1, r.2, [req]⟩

/-! ## Domestic distribution client: `get_korean_etf_distribution`
(app.py lines 115-156) -/

/-- One element of the `output` array of the KRX distribution response; all
fields arrive as strings, amounts locale-formatted. -/
structure RawDistRow where
  ETF_NM : String
  BAS_DD : String
  PAY_DD : String
  CAS_DSB : String
  STK_DSB : String
  TOT_DSB : String
deriving Repr, DecidableEq

/-- A row of the frame returned by `get_korean_etf_distribution` after the
renaming of app.py lines 139-147 and the numeric coercion of lines 150-151.
The three amount columns are nullable numbers; the other columns keep their
string values untouched. -/
structure DistRow where
  etf_name : String
  base_date : String
  pay_date : String
  cash_dist : Option Int
  stock_dist : Option Int
  total_dist : Option Int
deriving Repr, DecidableEq

/-- Python `str.replace(',', '')`: every comma removed. -/
def str_replace_comma (s : String) : String :=
  String.mk (s.data.filter (fun c => c ≠ ','))

/-- Value of one decimal digit character, or `none` for any other
character. -/
def digitVal (c : Char) : Option Nat :=
  if c.isDigit then some (c.toNat - 48) else none

/-- Accumulating decimal parse over a character list: fails on the first
non-digit character. -/
def parseNatAux : List Char → Nat → Option Nat
  | [], acc => some acc
  | c :: cs, acc =>
    match digitVal c with
    | some d => parseNatAux cs (acc * 10 + d)
    | none => none

/-- Decimal parse of a nonempty all-digit character list. -/
def parseNat : List Char → Option Nat
  | [] => none
  | cs => parseNatAux cs 0

/-- `pd.to_numeric(..., errors=coerce)` on the integer-formatted strings this
provider emits: an optionally signed digit string parses to its value, any
other string coerces to null instead of raising. -/
def to_numeric_coerce (s : String) : Option Int :=
  match s.data with
  | '-' :: cs => (parseNat cs).map (fun n => -(n : Int))
  | cs => (parseNat cs).map (fun n => (n : Int))

/-- Rename plus per-column numeric coercion of one output row (app.py lines
139-151): the three amount columns (현금분배금, 주식분배금, 총분배금) have
their commas stripped and are parsed to numbers, unparsable values becoming
null; the remaining columns (ETF명, 기준일, 지급일) are carried over
unchanged. -/
def coerceDistRow (r : RawDistRow) : DistRow :=
  { etf_name := r.ETF_NM
    base_date := r.BAS_DD
    pay_date := r.PAY_DD
    cash_dist := to_numeric_coerce (str_replace_comma r.CAS_DSB)
    stock_dist := to_numeric_coerce (str_replace_comma r.STK_DSB)
    total_dist := to_numeric_coerce (str_replace_comma r.TOT_DSB) }

/-- The form parameters of the POST issued by `get_korean_etf_distribution`
(app.py lines 123-129); the two dates are already formatted as `YYYYMMDD`
by `strftime`. -/
structure DistRequest where
  isuCd : String
  strtDd : String
  endDd : String
deriving Repr, DecidableEq

/-- Outcome of the transport / JSON pipeline of `get_korean_etf_distribution`:
an exception (caught by the `except` clause) or a decoded JSON object with
its optional `output` array. -/
inductive DistOutcome where
  | exc (msg : String)
  | json (output : Option (List RawDistRow))

/-- The returned pair `(data, error)` of `get_korean_etf_distribution`. -/
structure DistCallResult where
  data : Option (List DistRow)
  error : Option String
deriving Repr, DecidableEq

/-- Embedding of `get_korean_etf_distribution` (app.py lines 115-156).  A
falsy `output` (absent or empty) yields an empty frame with the
no-distributions message; otherwise each row is renamed and coerced; an
exception yields `None` data and the fetch-failure message. -/
def get_korean_etf_distribution (code : String)
    (start_date : String) (end_date : String)
    (transport : DistRequest → DistOutcome) : DistCallResult :=
  let req : DistRequest := ⟨code, start_date, end_date⟩
  match transport req with
  | .exc m => ⟨none, some ("분배금 정보 조회 실패: " ++ m)⟩
  | .json output =>
    match output with
    | none => ⟨some [], some "해당 기간의 분배금 정보가 없습니다."⟩
    | some [] => ⟨some [], some "해당 기간의 분배금 정보가 없습니다."⟩
    | some rows => ⟨some (rows.map coerceDistRow), none⟩

/-! ## Foreign market clients: `get_us_stock_data`, `get_us_etf_data`
(app.py lines 158-178) -/

/-- Outcome of one yfinance interaction: either some access in the `try`
block raised (`Ticker`, `history`, `info` or `dividends`), or all three
values were obtained.  The payload types are parameters because the source
passes the provider values through untouched. -/
inductive YfOutcome (H I D : Type) where
  | exc (msg : String)
  | ok (history : H) (info : I) (dividends : D)

/-- Embedding of `get_us_stock_data` (app.py lines 158-167): on success the
three provider values are returned with a `None` error slot; any provider
exception is caught and converted to `None` data plus the fetch-failure
message — the same `(data..., error)` shape the domestic clients use. -/
def get_us_stock_data {H I D : Type} (ticker : String) (period : String)
    (provider : String → String → YfOutcome H I D) :
    Option H × Option I × Option D × Option String :=
  match provider ticker period with
  | .ok h i d => (some h, some i, some d, none)
  | .exc m => (none, none, none, some ("데이터 조회 실패: " ++ m))

/-- Embedding of `get_us_etf_data` (app.py lines 169-178); the body is the
same as `get_us_stock_data` line for line, only the local variable names and
comments differ in the source. -/
def get_us_etf_data {H I D : Type} (ticker : String) (period : String)
    (provider : String → String → YfOutcome H I D) :
    Option H × Option I × Option D × Option String :=
  match provider ticker period with
  | .ok h i d => (some h, some i, some d, none)
  | .exc m => (none, none, none, some ("데이터 조회 실패: " ++ m))

/-! ## Claim C1 -/

/-- Claim C1 counterexample: a provider response with status `013` (no data
found) makes `get_korean_stock_dividend` return the provider-error shape —
data `None` together with the DART error message — and not the empty-result
shape (a present but empty frame), because the source treats every status
other than `000` uniformly as an error (app.py line 93). -/
theorem status013_returns_provider_error_not_empty :
    (get_korean_stock_dividend (some ("key")) ("00126380") 2023 ("11011")
        (fun _ => DivOutcome.json (some ("013")) (some ("조회된 데이타가 없습니다.")) none)).data
      = none
    ∧ (get_korean_stock_dividend (some ("key")) ("00126380") 2023 ("11011")
        (fun _ => DivOutcome.json (some ("013")) (some ("조회된 데이타가 없습니다.")) none)).error
      = some ("DART API 오류: 조회된 데이타가 없습니다.") := by
  exact ⟨rfl, rfl⟩

/-- Claim C1 (amended): for every decoded response whose status differs from
`000` — status `013` included — `get_korean_stock_dividend` returns a
provider error carrying the provider message text, with no data; the
empty-result shape arises only on status `000` with a falsy list. -/
theorem non_success_status_yields_provider_error
    (key : Option String) (code : String) (year : Nat) (reprt : String)
    (status message : Option String) (rows : Option (List Row))
    (h : status ≠ some ("000")) :
    get_korean_stock_dividend key code year reprt
        (fun _ => DivOutcome.json status message rows)
      = ⟨none, some ("DART API 오류: " ++ fmtOpt message),
          [⟨key, code, year, reprt⟩]⟩ := by
  simp [get_korean_stock_dividend, dividend_response_to_result, h]

/-- Witness for the amended claim C1, at status `013`. -/
theorem non_success_status_yields_provider_error_witness :
    get_korean_stock_dividend (some ("key")) ("00126380") 2023 ("11011")
        (fun _ => DivOutcome.json (some ("013")) (some ("조회된 데이타가 없습니다.")) none)
      = ⟨none, some ("DART API 오류: " ++ fmtOpt (some ("조회된 데이타가 없습니다."))),
          [⟨some ("key"), ("00126380"), 2023, ("11011")⟩]⟩ :=
  non_success_status_yields_provider_error _ _ _ _ _ _ _ (by decide)

/-! ## Claim C2 -/

/-- Claim C2 counterexample: with the three-character company code `abc` —
not six characters — `get_korean_stock_dividend` still issues exactly one
transport request and returns the renamed provider rows; no validation
error exists anywhere on this path. -/
theorem short_code_still_performs_transport_call :
    (get_korean_stock_dividend (some ("key")) ("abc") 2023 ("11011")
        (fun _ => DivOutcome.json (some ("000")) none
          (some [[(("thstrm"), ("361"))]]))).requests_made.length = 1
    ∧ (get_korean_stock_dividend (some ("key")) ("abc") 2023 ("11011")
        (fun _ => DivOutcome.json (some ("000")) none
          (some [[(("thstrm"), ("361"))]]))).data
      = some [[(("당기"), ("361"))]]
    ∧ ("abc").length ≠ 6 := by
  refine ⟨rfl, ?_, by decide⟩
  rfl

/-- Claim C2 (amended): `get_korean_stock_dividend` performs no length
validation of the company code — for every code, of any length, it issues
exactly one transport request, built unconditionally from its arguments,
before any other processing. -/
theorem dividend_always_exactly_one_transport_call
    (key : Option String) (code : String) (year : Nat) (reprt : String)
    (transport : DivRequest → DivOutcome) :
    (get_korean_stock_dividend key code year reprt transport).requests_made
      = [⟨key, code, year, reprt⟩] := rfl

/-! ## Claim C3 -/

/-- Claim C3 counterexample: a transport-stage failure of
`get_dart_corp_codes`, and likewise of `get_krx_etf_list`, returns to the
caller exactly the same empty frame that a successful fetch with zero rows
returns — the two are indistinguishable in the returned value. -/
theorem failed_fetch_returns_same_rows_as_empty_success :
    (get_dart_corp_codes (some ("key"))
        (fun _ => CorpFetchOutcome.httpError ("timeout"))).rows
      = (get_dart_corp_codes (some ("key"))
          (fun _ => CorpFetchOutcome.ok [])).rows
    ∧ (get_krx_etf_list (EtfFetchOutcome.httpError ("timeout"))).rows
      = (get_krx_etf_list (EtfFetchOutcome.ok [])).rows := ⟨rfl, rfl⟩

/-- Claim C3 (amended): when any stage of `get_dart_corp_codes` or
`get_krx_etf_list` fails, the function returns an empty frame — equal as a
value to a zero-row success — and the failure is signalled only through the
`st.error` UI side channel, which receives a message exactly on the failing
executions. -/
theorem failure_reported_only_via_ui_side_channel
    (key : Option String) (m : String) :
    ((get_dart_corp_codes key (fun _ => CorpFetchOutcome.httpError m)).rows = []
      ∧ (get_dart_corp_codes key (fun _ => CorpFetchOutcome.httpError m)).displayed_errors
          = [("회사 코드 데이터 조회 실패: ") ++ m])
    ∧ ((get_dart_corp_codes key (fun _ => CorpFetchOutcome.zipError m)).rows = []
      ∧ (get_dart_corp_codes key (fun _ => CorpFetchOutcome.zipError m)).displayed_errors
          = [("회사 코드 데이터 조회 실패: ") ++ m])
    ∧ ((get_dart_corp_codes key (fun _ => CorpFetchOutcome.parseError m)).rows = []
      ∧ (get_dart_corp_codes key (fun _ => CorpFetchOutcome.parseError m)).displayed_errors
          = [("회사 코드 데이터 조회 실패: ") ++ m])
    ∧ (get_dart_corp_codes key (fun _ => CorpFetchOutcome.ok [])).displayed_errors = []
    ∧ ((get_krx_etf_list (EtfFetchOutcome.httpError m)).rows = []
      ∧ (get_krx_etf_list (EtfFetchOutcome.httpError m)).displayed_errors
          = [("ETF 목록 조회 실패: ") ++ m])
    ∧ ((get_krx_etf_list (EtfFetchOutcome.jsonError m)).rows = []
      ∧ (get_krx_etf_list (EtfFetchOutcome.jsonError m)).displayed_errors
          = [("ETF 목록 조회 실패: ") ++ m])
    ∧ ((get_krx_etf_list (EtfFetchOutcome.keyError m)).rows = []
      ∧ (get_krx_etf_list (EtfFetchOutcome.keyError m)).displayed_errors
          = [("ETF 목록 조회 실패: ") ++ m])
    ∧ (get_krx_etf_list (EtfFetchOutcome.ok [])).displayed_errors = [] :=
  ⟨⟨rfl, rfl⟩, ⟨rfl, rfl⟩, ⟨rfl, rfl⟩, rfl, ⟨rfl, rfl⟩, ⟨rfl, rfl⟩, ⟨rfl, rfl⟩, rfl⟩

/-! ## Claim C4 -/

/-- Claim C4 counterexample: with the registry API key absent from the
environment (`DART_API_KEY = None`), `get_dart_corp_codes` still issues its
transport request, carrying `crtfc_key = None` — the failure surfaces only
afterwards, as a downstream fetch error, never as a prior configuration
error. -/
theorem missing_key_transport_call_made :
    (get_dart_corp_codes none
        (fun _ => CorpFetchOutcome.httpError ("401 Unauthorized"))).requests_made
      = [⟨none⟩]
    ∧ (get_dart_corp_codes none
        (fun _ => CorpFetchOutcome.httpError ("401 Unauthorized"))).displayed_errors
      = [("회사 코드 데이터 조회 실패: 401 Unauthorized")] := ⟨rfl, rfl⟩

/-- Claim C4 (amended): the credential is never checked before fetching —
for every transport behaviour, a `get_dart_corp_codes` run with the key
absent issues exactly one request whose `crtfc_key` parameter is the absent
credential. -/
theorem missing_key_still_calls_transport_with_none
    (transport : DartRequest → CorpFetchOutcome) :
    (get_dart_corp_codes none transport).requests_made = [⟨none⟩] := by
  cases h : transport ⟨none⟩ <;> simp [get_dart_corp_codes, h]

/-! ## Claim C5 -/

/-- Nonblank-ticker predicate on a registry entry: the `stock_code` field is
present and still nonempty after stripping whitespace. -/
def hasNonblankTicker (c : RawCompany) : Bool :=
  match c.stock_code with
  | none => false
  | some s => s.trim ≠ ""

/-- Entries kept by the source filter have a nonblank ticker. -/
theorem keepCompany_nonblank (c : RawCompany) (h : keepCompany c = true) :
    hasNonblankTicker c = true := by
  unfold keepCompany at h
  unfold hasNonblankTicker
  cases hcs : c.stock_code with
  | none => rw [hcs] at h; simp at h
  | some s =>
      rw [hcs] at h
      simp only [Bool.and_eq_true] at h
      exact h.2

/-- Claim C5: every entry of the frame returned by a successful
`get_dart_corp_codes` fetch has a nonblank `stock_code` — records whose
ticker is absent, empty, or whitespace-only are excluded by the filter of
app.py line 39, so no blank-ticker entry can be resolved by the
`stock_code` lookup built on the frame. -/
theorem corp_codes_rows_have_nonblank_ticker
    (key : Option String) (transport : DartRequest → CorpFetchOutcome)
    (companies : List RawCompany)
    (h : transport ⟨key⟩ = CorpFetchOutcome.ok companies) :
    (get_dart_corp_codes key transport).rows.all hasNonblankTicker = true := by
  simp only [get_dart_corp_codes, h]
  rw [List.all_eq_true]
  intro c hc
  exact keepCompany_nonblank c (List.mem_filter.mp hc).2

/-- Witness for claim C5: a directory holding one listed company, one entry
with an absent ticker and one entry with a whitespace-only ticker. -/
theorem corp_codes_rows_have_nonblank_ticker_witness :
    (get_dart_corp_codes (some ("key"))
        (fun _ => CorpFetchOutcome.ok
          [⟨some ("00126380"), some ("삼성전자"), some ("005930")⟩,
           ⟨some ("00999999"), some ("비상장회사"), none⟩,
           ⟨some ("00888888"), some ("공백회사"), some ("   ")⟩])).rows.all
      hasNonblankTicker = true :=
  corp_codes_rows_have_nonblank_ticker _ _ _ rfl

/-! ## Claim C6 -/

/-- Claim C6: in the numeric coercion of the three distribution-amount
columns of `get_korean_etf_distribution`, the locale-formatted string
`1,234,567` parses to the number `1234567`, and the unparsable string `N/A`
becomes null — without raising (the result is a successful frame with no
error) and without discarding or changing the remaining fields of the
row. -/
theorem distribution_numeric_coercion
    (code s e nm bas pay tot : String)
    (transport : DistRequest → DistOutcome)
    (h : transport ⟨code, s, e⟩
        = DistOutcome.json (some [⟨nm, bas, pay, ("1,234,567"), ("N/A"), tot⟩])) :
    get_korean_etf_distribution code s e transport
      = ⟨some [⟨nm, bas, pay, some 1234567, none,
          to_numeric_coerce (str_replace_comma tot)⟩], none⟩ := by
  have h1 : to_numeric_coerce (str_replace_comma ("1,234,567")) = some 1234567 := by
    decide
  have h2 : to_numeric_coerce (str_replace_comma ("N/A")) = none := by decide
  simp [get_korean_etf_distribution, h, coerceDistRow, h1, h2]

/-- Witness for claim C6 at a concrete distribution row. -/
theorem distribution_numeric_coercion_witness :
    get_korean_etf_distribution ("KR7069500007") ("20230101") ("20231231")
        (fun _ => DistOutcome.json
          (some [⟨("KODEX 200"), ("20230427"), ("20230502"),
                 ("1,234,567"), ("N/A"), ("1,234,567")⟩]))
      = ⟨some [⟨("KODEX 200"), ("20230427"), ("20230502"), some 1234567, none,
          to_numeric_coerce (str_replace_comma ("1,234,567"))⟩], none⟩ :=
  distribution_numeric_coercion _ _ _ _ _ _ _ _ rfl

/-! ## Claim C7 -/

/-- Claim C7: on a success response — provider status `000` with a nonempty
row list — `get_korean_stock_dividend` returns a nonempty row set with no
error, in which every field of every row has been passed through the fixed
renaming table: `thstrm`, `frmtrm`, `lwfr`, `stock_knd` and the three
payment-date fields map to their Korean labels. -/
theorem dividend_success_rows_renamed
    (key : Option String) (code : String) (year : Nat) (reprt : String)
    (message : Option String) (rows : List Row)
    (transport : DivRequest → DivOutcome)
    (h : transport ⟨key, code, year, reprt⟩
        = DivOutcome.json (some ("000")) message (some rows))
    (hne : rows ≠ []) :
    (get_korean_stock_dividend key code year reprt transport).data
        = some (rows.map renameRow)
    ∧ (get_korean_stock_dividend key code year reprt transport).error = none
    ∧ rows.map renameRow ≠ []
    ∧ mapColumn ("thstrm") = ("당기")
    ∧ mapColumn ("frmtrm") = ("전기")
    ∧ mapColumn ("lwfr") = ("전전기")
    ∧ mapColumn ("stock_knd") = ("주식 종류")
    ∧ mapColumn ("thstrm_dd") = ("당기 배당일")
    ∧ mapColumn ("frmtrm_dd") = ("전기 배당일")
    ∧ mapColumn ("lwfr_dd") = ("전전기 배당일") := by
  cases rows with
  | nil => exact absurd rfl hne
  | cons r rs =>
      refine ⟨?_, ?_, by simp, rfl, rfl, rfl, rfl, rfl, rfl, rfl⟩
      · simp [get_korean_stock_dividend, dividend_response_to_result, h]
      · simp [get_korean_stock_dividend, dividend_response_to_result, h]

/-- Witness for claim C7 at a concrete one-row success response. -/
theorem dividend_success_rows_renamed_witness :
    (get_korean_stock_dividend (some ("key")) ("00126380") 2023 ("11011")
        (fun _ => DivOutcome.json (some ("000")) none
          (some [[(("thstrm"), ("361")), (("stock_knd"), ("보통주"))]]))).data
        = some ([[(("thstrm"), ("361")), (("stock_knd"), ("보통주"))]].map renameRow)
    ∧ (get_korean_stock_dividend (some ("key")) ("00126380") 2023 ("11011")
        (fun _ => DivOutcome.json (some ("000")) none
          (some [[(("thstrm"), ("361")), (("stock_knd"), ("보통주"))]]))).error = none
    ∧ [[(("thstrm"), ("361")), (("stock_knd"), ("보통주"))]].map renameRow ≠ []
    ∧ mapColumn ("thstrm") = ("당기")
    ∧ mapColumn ("frmtrm") = ("전기")
    ∧ mapColumn ("lwfr") = ("전전기")
    ∧ mapColumn ("stock_knd") = ("주식 종류")
    ∧ mapColumn ("thstrm_dd") = ("당기 배당일")
    ∧ mapColumn ("frmtrm_dd") = ("전기 배당일")
    ∧ mapColumn ("lwfr_dd") = ("전전기 배당일") :=
  dividend_success_rows_renamed _ _ _ _ _ _ _ rfl (by decide)

/-! ## Claim C8 -/

/-- Claim C8: whatever the ticker and period, when the foreign-market
provider raises, `get_us_stock_data` and `get_us_etf_data` catch the
exception at the client boundary and return absent data plus the
fetch-failure message in the same `(data..., error)` tagged shape the
domestic clients use; no provider exception escapes the functions. -/
theorem us_clients_catch_provider_exception {H I D : Type}
    (ticker period msg : String)
    (provider : String → String → YfOutcome H I D)
    (h : provider ticker period = YfOutcome.exc msg) :
    get_us_stock_data ticker period provider
        = (none, none, none, some (("데이터 조회 실패: ") ++ msg))
    ∧ get_us_etf_data ticker period provider
        = (none, none, none, some (("데이터 조회 실패: ") ++ msg)) := by
  unfold get_us_stock_data get_us_etf_data
  rw [h]
  exact ⟨rfl, rfl⟩

/-- Witness for claim C8 at a concrete always-raising provider. -/
theorem us_clients_catch_provider_exception_witness :
    get_us_stock_data ("AAPL") ("1y")
        (fun _ _ => (YfOutcome.exc ("HTTPError") : YfOutcome Unit Unit Unit))
        = (none, none, none, some (("데이터 조회 실패: ") ++ ("HTTPError")))
    ∧ get_us_etf_data ("AAPL") ("1y")
        (fun _ _ => (YfOutcome.exc ("HTTPError") : YfOutcome Unit Unit Unit))
        = (none, none, none, some (("데이터 조회 실패: ") ++ ("HTTPError"))) :=
  us_clients_catch_provider_exception _ _ _ _ rfl

/-! ## Claim C9 -/

/-- Claim C9: a well-formed response whose `output` array is empty makes
`get_korean_etf_distribution` return a present-but-empty row set together
with the no-distributions-in-range message — a value whose data component
differs from that of every failing fetch of the same query, which returns
absent data. -/
theorem empty_output_distinct_from_failure
    (code s e : String) (transport : DistRequest → DistOutcome)
    (h : transport ⟨code, s, e⟩ = DistOutcome.json (some [])) :
    (get_korean_etf_distribution code s e transport).data = some []
    ∧ (get_korean_etf_distribution code s e transport).error
        = some ("해당 기간의 분배금 정보가 없습니다.")
    ∧ ∀ (t2 : DistRequest → DistOutcome) (m : String),
        t2 ⟨code, s, e⟩ = DistOutcome.exc m →
        (get_korean_etf_distribution code s e t2).data
          ≠ (get_korean_etf_distribution code s e transport).data := by
  refine ⟨?_, ?_, ?_⟩
  · simp [get_korean_etf_distribution, h]
  · simp [get_korean_etf_distribution, h]
  · intro t2 m h2
    simp [get_korean_etf_distribution, h, h2]

/-- Witness for claim C9 at a concrete empty-output response. -/
theorem empty_output_distinct_from_failure_witness :
    (get_korean_etf_distribution ("KR7069500007") ("20230101") ("20231231")
        (fun _ => DistOutcome.json (some []))).data = some []
    ∧ (get_korean_etf_distribution ("KR7069500007") ("20230101") ("20231231")
        (fun _ => DistOutcome.json (some []))).error
        = some ("해당 기간의 분배금 정보가 없습니다.")
    ∧ ∀ (t2 : DistRequest → DistOutcome) (m : String),
        t2 ⟨("KR7069500007"), ("20230101"), ("20231231")⟩ = DistOutcome.exc m →
        (get_korean_etf_distribution ("KR7069500007") ("20230101") ("20231231") t2).data
          ≠ (get_korean_etf_distribution ("KR7069500007") ("20230101") ("20231231")
              (fun _ => DistOutcome.json (some []))).data :=
  empty_output_distinct_from_failure _ _ _ _ rfl

/-! ## Claim C10 -/

/-- Claim C10: `get_us_stock_data` and `get_us_etf_data` compute the same
function — for every ticker, period token and provider behaviour they
return identical history, info, dividend-series and error components, on
the success path and on the exception path alike. -/
theorem us_stock_and_etf_same_function {H I D : Type}
    (ticker period : String) (provider : String → String → YfOutcome H I D) :
    get_us_stock_data ticker period provider
      = get_us_etf_data ticker period provider := rfl

end DividendApp
